import Mathlib

/-!
Verification development for the saleor webhook utilities
(`saleor/plugins/webhook/utils.py`) and the product search document
builder (`saleor/product/search.py`).

Python strings are modelled as `List Char`; Python `dict` lookups with
optional keys become `Option` fields of structures; exceptions become
`Except`/`Option` results.  Functions from the Python standard library
(`str.split`, `str.lower`, `int`, `decimal.Decimal`, `json.dumps`) are
modelled explicitly below; the model notes where it simplifies
(no underscore digit separators, no exponent notation, ASCII case map).
-/

namespace Saleor

/-- Python strings are modelled as lists of characters. -/
abbrev Str := List Char

/-! ### Models of Python primitives -/

/-- Model of Python per-character lower-casing (ASCII range). Matches
Lean's `Char.toLower`. -/
def pyCharLower (c : Char) : Char := c.toLower

/-- Model of Python `str.lower()`. -/
def pyLower (s : Str) : Str := s.map pyCharLower

/-- Model of Python `sep.join(parts)`. -/
def joinSep (sep : Str) : List Str → Str
  | [] => []
  | [x] => x
  | x :: y :: xs => x ++ sep ++ joinSep sep (y :: xs)

/-- Model of Python `s.split(sep)` for a one-character separator:
splits at every occurrence, keeping empty segments, and returns `[""]`
for the empty string. -/
def pySplit (sep : Char) : Str → List Str
  | [] => [[]]
  | c :: rest =>
    let r := pySplit sep rest
    if c = sep then [] :: r
    else
      match r with
      | h :: t => (c :: h) :: t
      | [] => [[c]]

/-- Model of Python `str.strip()` with no argument: drop leading and
trailing whitespace. -/
def stripWs (s : Str) : Str :=
  ((s.dropWhile Char.isWhitespace).reverse.dropWhile Char.isWhitespace).reverse

/-- Numeric value of a decimal digit character. -/
def digitVal (c : Char) : Nat := c.toNat - 48

/-- Parse a run of decimal digits into an accumulator; `none` as soon
as a non-digit appears. -/
def digitsToNat (acc : Nat) : Str → Option Nat
  | [] => some acc
  | c :: cs => if c.isDigit then digitsToNat (10 * acc + digitVal c) cs else none

/-- Digit run that must be non-empty (Python `int("-")` and `int("")`
raise). -/
def digitsToNatNE (s : Str) : Option Nat :=
  if s = [] then none else digitsToNat 0 s

/-- Model of Python `int(s)` for base-10 string input: surrounding
whitespace is stripped, an optional single sign is allowed, and the rest
must be one or more decimal digits.  (Underscore digit separators and
non-ASCII digits accepted by CPython are not modelled.) -/
def pyInt (s : Str) : Option Int :=
  match stripWs s with
  | [] => none
  | c :: rest =>
    if c = '-' then (digitsToNatNE rest).map (fun n => -(n : Int))
    else if c = '+' then (digitsToNatNE rest).map (fun n => (n : Int))
    else (digitsToNat 0 (c :: rest)).map (fun n => (n : Int))

/-- The character for a digit value below ten. -/
def digitChar (d : Nat) : Char := Char.ofNat (48 + d)

/-- Decimal rendering of a natural number, accumulator and fuel form
(the fuel only makes the recursion structural; any fuel at least `n`
gives the same digits). -/
def natStrGo : Nat → Nat → Str → Str
  | 0, n, acc => digitChar n :: acc
  | fuel + 1, n, acc =>
    if n < 10 then digitChar n :: acc
    else natStrGo fuel (n / 10) (digitChar (n % 10) :: acc)

/-- Model of Python `str(n)` for a non-negative integer. -/
def natStr (n : Nat) : Str := natStrGo n n []

/-! ### Payment app identifiers (`saleor/plugins/webhook/utils.py`) -/

/-- `APP_ID_PREFIX = "app"` from the source. -/
def appIdHead : Str := "app".toList

/-- Model of the `App` model: only its integer primary key is used
here.  Django primary keys are positive integers, so `pk : Nat`. -/
structure App where
  pk : Nat
deriving DecidableEq, Repr

/-- `PaymentAppData` dataclass. `app_pk` is a Python `int`. -/
structure PaymentAppData where
  app_pk : Int
  name : Str
deriving DecidableEq, Repr

/-- `to_payment_app_id(app, gateway_id)`:
`f"{APP_ID_PREFIX}:{app.pk}:{gateway_id}"`. -/
def to_payment_app_id (app : App) (gateway_id : Str) : Str :=
  appIdHead ++ ':' :: (natStr app.pk ++ ':' :: gateway_id)

/-- `from_payment_app_id(app_gateway_id)`: split on `":"`; require
exactly three segments, first segment `"app"`, all segments non-empty
(Python `all` on strings is non-emptiness); parse the middle segment
with `int`, returning `None` when that fails. -/
def from_payment_app_id (app_gateway_id : Str) : Option PaymentAppData :=
  let splitted_id := pySplit ':' app_gateway_id
  if splitted_id.length = 3 ∧ splitted_id.headI = appIdHead ∧
      splitted_id.all (fun seg => seg ≠ []) then
    match pyInt (splitted_id.getD 1 []) with
    | none => none
    | some app_pk => some ⟨app_pk, splitted_id.getD 2 []⟩
  else none

example : to_payment_app_id ⟨7⟩ "stripe".toList = "app:7:stripe".toList := by decide

example : from_payment_app_id "app:7:stripe".toList =
    some ⟨7, "stripe".toList⟩ := by decide

example : from_payment_app_id "app:7:".toList = none := by decide

example : from_payment_app_id "app:x:y".toList = none := by decide

example : from_payment_app_id "app:7:a:b".toList = none := by decide

/-! ### Arithmetic facts about the string model -/

theorem charOfNat_toNat {n : Nat} (h : n < 55296) : (Char.ofNat n).toNat = n := by
  have hv : n.isValidChar := Or.inl h
  simp [Char.ofNat, hv]
  simp [Char.ofNatAux, Char.toNat, UInt32.toNat, BitVec.toNat_ofNatLt]

theorem pyCharLower_idem (c : Char) : pyCharLower (pyCharLower c) = pyCharLower c := by
  unfold pyCharLower Char.toLower
  by_cases h : c.toNat ≥ 65 ∧ c.toNat ≤ 90
  · have h32 : (Char.ofNat (c.toNat + 32)).toNat = c.toNat + 32 :=
      charOfNat_toNat (by omega)
    simp [h, h32]
    omega
  · simp [h]

theorem isDigit_digitChar {d : Nat} (h : d < 10) : (digitChar d).isDigit = true := by
  interval_cases d <;> decide

theorem digitVal_digitChar {d : Nat} (h : d < 10) : digitVal (digitChar d) = d := by
  interval_cases d <;> decide

theorem not_isWhitespace_of_isDigit {c : Char} (h : c.isDigit = true) :
    c.isWhitespace = false := by
  by_contra hw
  simp only [Bool.not_eq_false, Char.isWhitespace, Bool.or_eq_true,
    decide_eq_true_eq] at hw
  have hc : c = ' ' ∨ c = '\t' ∨ c = '\x0d' ∨ c = '\n' := by tauto
  rcases hc with h1 | h1 | h1 | h1 <;> (subst h1; exact absurd h (by decide))

theorem digitChar_ne_colon {d : Nat} (h : d < 10) : digitChar d ≠ ':' := by
  interval_cases d <;> decide

/-! ### `natStr` produces the decimal digits and round-trips with `pyInt` -/

theorem natStrGo_irrel (f₁ : Nat) :
    ∀ f₂ n acc, n ≤ f₁ → n ≤ f₂ → natStrGo f₁ n acc = natStrGo f₂ n acc := by
  induction f₁ with
  | zero =>
    intro f₂ n acc h1 _
    have hn : n = 0 := by omega
    subst hn
    cases f₂ <;> simp [natStrGo]
  | succ f ih =>
    intro f₂ n acc h1 h2
    cases f₂ with
    | zero =>
      have hn : n = 0 := by omega
      subst hn
      simp [natStrGo]
    | succ g =>
      simp only [natStrGo]
      by_cases h : n < 10
      · simp [h]
      · simp only [h, if_false]
        have hd : n / 10 < n := Nat.div_lt_self (by omega) (by omega)
        exact ih g (n / 10) _ (by omega) (by omega)

theorem natStrGo_append (f : Nat) :
    ∀ n acc, natStrGo f n acc = natStrGo f n [] ++ acc := by
  induction f with
  | zero => intro n acc; simp [natStrGo]
  | succ f ih =>
    intro n acc
    by_cases h : n < 10
    · simp [natStrGo, h]
    · simp only [natStrGo, h, if_false]
      rw [ih (n / 10) (digitChar (n % 10) :: acc), ih (n / 10) [digitChar (n % 10)]]
      simp

theorem natStr_unfold (n : Nat) :
    natStr n = if n < 10 then [digitChar n]
               else natStr (n / 10) ++ [digitChar (n % 10)] := by
  by_cases h : n < 10
  · simp only [h, if_true]
    unfold natStr
    cases n with
    | zero => simp [natStrGo]
    | succ m => simp [natStrGo, h]
  · simp only [h, if_false]
    unfold natStr
    cases n with
    | zero => omega
    | succ m =>
      simp only [natStrGo, h, if_false]
      have hd : (m + 1) / 10 < m + 1 := Nat.div_lt_self (by omega) (by omega)
      rw [natStrGo_irrel m ((m + 1) / 10) ((m + 1) / 10) _ (by omega) (by omega)]
      exact natStrGo_append _ _ _

theorem natStr_ne_nil (n : Nat) : natStr n ≠ [] := by
  rw [natStr_unfold]
  by_cases h : n < 10 <;> simp [h]

theorem natStr_all_digits (n : Nat) : ∀ c ∈ natStr n, c.isDigit = true := by
  induction n using Nat.strong_induction_on with
  | _ n ih =>
    intro c hc
    rw [natStr_unfold] at hc
    by_cases h : n < 10
    · simp [h] at hc
      subst hc
      exact isDigit_digitChar h
    · simp only [h, if_false, List.mem_append, List.mem_singleton] at hc
      rcases hc with hc | hc
      · exact ih (n / 10) (Nat.div_lt_self (by omega) (by omega)) c hc
      · subst hc
        exact isDigit_digitChar (Nat.mod_lt _ (by omega))

theorem digitsToNat_append (xs : Str) :
    ∀ acc ys, digitsToNat acc (xs ++ ys) =
      (digitsToNat acc xs).bind (fun m => digitsToNat m ys) := by
  induction xs with
  | nil => intro acc ys; simp [digitsToNat]
  | cons c cs ih =>
    intro acc ys
    by_cases h : c.isDigit <;> simp [digitsToNat, h, ih]

theorem digitsToNat_natStr (n : Nat) : digitsToNat 0 (natStr n) = some n := by
  induction n using Nat.strong_induction_on with
  | _ n ih =>
    rw [natStr_unfold]
    by_cases h : n < 10
    · simp [h, digitsToNat, isDigit_digitChar h, digitVal_digitChar h]
    · simp only [h, if_false]
      rw [digitsToNat_append, ih (n / 10) (Nat.div_lt_self (by omega) (by omega))]
      have h10 : n % 10 < 10 := Nat.mod_lt _ (by omega)
      simp [digitsToNat, isDigit_digitChar h10, digitVal_digitChar h10]
      omega

theorem dropWhile_eq_self_of_all {p : Char → Bool} {s : Str}
    (h : ∀ c ∈ s, p c = false) : s.dropWhile p = s := by
  cases s with
  | nil => rfl
  | cons c cs => simp [List.dropWhile, h c (by simp)]

theorem stripWs_eq_self_of_digits {s : Str} (h : ∀ c ∈ s, c.isDigit = true) :
    stripWs s = s := by
  unfold stripWs
  rw [dropWhile_eq_self_of_all (fun c hc => not_isWhitespace_of_isDigit (h c hc)),
      dropWhile_eq_self_of_all
        (fun c hc => not_isWhitespace_of_isDigit (h c (List.mem_reverse.mp hc)))]
  simp

theorem pyInt_natStr (n : Nat) : pyInt (natStr n) = some (n : Int) := by
  have hdig := natStr_all_digits n
  have hs : stripWs (natStr n) = natStr n := stripWs_eq_self_of_digits hdig
  unfold pyInt
  rw [hs]
  cases hn : natStr n with
  | nil => exact absurd hn (natStr_ne_nil n)
  | cons c cs =>
    have hcdig : c.isDigit = true := by
      apply hdig
      rw [hn]; simp
    have hcm : c ≠ '-' := by
      intro he; subst he; exact absurd hcdig (by decide)
    have hcp : c ≠ '+' := by
      intro he; subst he; exact absurd hcdig (by decide)
    simp only [hcm, hcp, if_false]
    rw [← hn, digitsToNat_natStr n]
    rfl

/-! ### Behaviour of `pySplit` -/

theorem pySplit_ne_nil (sep : Char) (s : Str) : pySplit sep s ≠ [] := by
  cases s with
  | nil => simp [pySplit]
  | cons c cs =>
    simp only [pySplit]
    by_cases h : c = sep
    · simp [h]
    · simp only [h, if_false]
      cases pySplit sep cs <;> simp

theorem pySplit_no_sep {sep : Char} {xs : Str} (h : sep ∉ xs) :
    pySplit sep xs = [xs] := by
  induction xs with
  | nil => rfl
  | cons c cs ih =>
    have hc : ¬(c = sep) := fun he => h (by simp [he])
    have hcs : sep ∉ cs := fun hm => h (by simp [hm])
    simp [pySplit, hc, ih hcs]

theorem pySplit_append_sep {sep : Char} {xs : Str} (ys : Str) (h : sep ∉ xs) :
    pySplit sep (xs ++ sep :: ys) = xs :: pySplit sep ys := by
  induction xs with
  | nil => simp [pySplit]
  | cons c cs ih =>
    have hc : ¬(c = sep) := fun he => h (by simp [he])
    have hcs : sep ∉ cs := fun hm => h (by simp [hm])
    simp [pySplit, hc, ih hcs]

theorem pySplit_payment_id (pk : Nat) (gid : Str) (h : ':' ∉ gid) :
    pySplit ':' (to_payment_app_id ⟨pk⟩ gid) = [appIdHead, natStr pk, gid] := by
  have happ : ':' ∉ appIdHead := by decide
  have hds : ':' ∉ natStr pk := fun hm =>
    absurd (natStr_all_digits pk ':' hm) (by decide)
  show pySplit ':' (appIdHead ++ ':' :: (natStr pk ++ ':' :: gid)) = _
  rw [pySplit_append_sep _ happ, pySplit_append_sep _ hds, pySplit_no_sep h]

/-- C1: the claim quantifies over every gateway id string, but
`from_payment_app_id` rejects ids whose third segment is empty: for
`app_pk = 7` and `gateway_id = ""`, `to_payment_app_id` yields `"app:7:"`
and parsing it back yields `None`, not `PaymentAppData(7, "")`. -/
theorem claim_C1_counterexample :
    ¬ from_payment_app_id (to_payment_app_id ⟨7⟩ "".toList) =
      some ⟨7, "".toList⟩ := by decide

/-- C1 (amended): for every app with integer primary key and every
gateway id string that is non-empty and contains no colon,
`from_payment_app_id (to_payment_app_id app gateway_id)` returns
`PaymentAppData(app_pk, gateway_id)`; in particular for `app_pk = 7`,
`gateway_id = "stripe"` the id is `"app:7:stripe"` and parses back to
`PaymentAppData(7, "stripe")`. -/
theorem claim_C1 (app : App) (gateway_id : Str) (hne : gateway_id ≠ [])
    (hc : ':' ∉ gateway_id) :
    from_payment_app_id (to_payment_app_id app gateway_id) =
      some ⟨(app.pk : Int), gateway_id⟩ := by
  obtain ⟨pk⟩ := app
  simp only [from_payment_app_id, pySplit_payment_id pk gateway_id hc]
  have hcond : ([appIdHead, natStr pk, gateway_id]).length = 3 ∧
      ([appIdHead, natStr pk, gateway_id]).headI = appIdHead ∧
      ([appIdHead, natStr pk, gateway_id]).all (fun seg => seg ≠ []) = true := by
    refine ⟨rfl, rfl, ?_⟩
    simp [appIdHead, natStr_ne_nil pk, hne]
  rw [if_pos hcond]
  simp [pyInt_natStr]

theorem claim_C1_witness :
    from_payment_app_id (to_payment_app_id ⟨7⟩ "stripe".toList) =
      some ⟨7, "stripe".toList⟩ :=
  claim_C1 ⟨7⟩ "stripe".toList (by decide) (by decide)

/-- C4: every string that is not a well-formed payment app identifier
(wrong number of colon-separated segments, first segment not "app",
non-integer primary-key segment, or an empty segment) is mapped by
`from_payment_app_id` to `None`; the function is total, so no exception
escapes. -/
theorem claim_C4 (s : Str)
    (h : (pySplit ':' s).length ≠ 3 ∨ (pySplit ':' s).headI ≠ appIdHead ∨
      (∃ seg ∈ pySplit ':' s, seg = []) ∨
      pyInt ((pySplit ':' s).getD 1 []) = none) :
    from_payment_app_id s = none := by
  simp only [from_payment_app_id]
  split_ifs with hcond
  · obtain ⟨h1, h2, h3⟩ := hcond
    have hne : ∀ seg ∈ pySplit ':' s, seg ≠ [] := by
      intro seg hm
      have := List.all_eq_true.mp h3 seg hm
      simpa using this
    have hp : pyInt ((pySplit ':' s).getD 1 []) = none := by
      rcases h with h | h | h | h
      · exact absurd h1 h
      · exact absurd h2 h
      · obtain ⟨seg, hm, he⟩ := h
        exact absurd he (hne seg hm)
      · exact h
    rw [hp]
  · rfl

theorem claim_C4_witness : from_payment_app_id "app:x:y".toList = none :=
  claim_C4 "app:x:y".toList (Or.inr (Or.inr (Or.inr (by decide))))

/-! ### Model of `decimal.Decimal` construction from a string -/

/-- A decimal value: integer mantissa with a power-of-ten scale
(the value is `mantissa / 10 ^ scale`). -/
structure Dec where
  mantissa : Int
  scale : Nat
deriving DecidableEq, Repr

/-- Unsigned decimal literal: digits, optionally split by one point;
at least one digit overall (`"1."` and `".5"` parse, `"."` does not). -/
def parseUnsignedDec (s : Str) : Option (Nat × Nat) :=
  match pySplit '.' s with
  | [ip] =>
    if ip ≠ [] ∧ ip.all (fun c => c.isDigit) then
      (digitsToNat 0 ip).map (fun v => (v, 0))
    else none
  | [ip, fp] =>
    if (ip ≠ [] ∨ fp ≠ []) ∧ ip.all (fun c => c.isDigit) ∧
        fp.all (fun c => c.isDigit) then
      (digitsToNat 0 (ip ++ fp)).map (fun v => (v, fp.length))
    else none
  | _ => none

/-- Model of `decimal.Decimal(s)` for a string argument: strip
whitespace, optional sign, decimal digits with an optional point.
(Exponent notation and the special values Infinity/NaN are not
modelled.)  `none` models a raised `decimal.DecimalException`. -/
def Dec.parse (s : Str) : Option Dec :=
  match stripWs s with
  | [] => none
  | c :: rest =>
    if c = '-' then (parseUnsignedDec rest).map (fun p => ⟨-(p.1 : Int), p.2⟩)
    else if c = '+' then (parseUnsignedDec rest).map (fun p => ⟨(p.1 : Int), p.2⟩)
    else (parseUnsignedDec (c :: rest)).map (fun p => ⟨(p.1 : Int), p.2⟩)

example : Dec.parse "12.5".toList = some ⟨125, 1⟩ := by decide
example : Dec.parse "-3".toList = some ⟨-3, 0⟩ := by decide
example : Dec.parse "x1".toList = none := by decide
example : Dec.parse "".toList = none := by decide

/-! ### Tax data parsing (`saleor/plugins/webhook/utils.py`) -/

/-- Python exception classes raised by the parsers: `KeyError` and
`DecimalException` (both caught by `parse_tax_data`), and `TypeError`
(raised by `Decimal(None)` inside `Money`, never caught here). -/
inductive PyExc where
  | keyError
  | decimalException
  | typeError
deriving DecidableEq, Repr

/-- Model of `resp["key"]` on a dict: raises `KeyError` when absent. -/
def getKey {α : Type} : Option α → Except PyExc α
  | none => .error .keyError
  | some v => .ok v

/-- A JSON value as found in an amount field of a decoded response:
either JSON `null` or a string.  (JSON numbers, which `Decimal` would
also accept, are not modelled; strings are what the webhook protocol
sends.) -/
inductive JVal where
  | null
  | str : Str → JVal
deriving DecidableEq, Repr

/-- Model of `decimal.Decimal(x)` on a decoded JSON value: a string is
parsed (raising `DecimalException` when unparseable) and `None` raises
`TypeError` — `Decimal(None)` is a `TypeError`, not a
`DecimalException`. -/
def pyDecimal (v : JVal) : Except PyExc Dec :=
  match v with
  | .null => .error .typeError
  | .str s =>
    match Dec.parse s with
    | none => .error .decimalException
    | some d => .ok d

/-- `TaxLineData` dataclass (fields as constructed in the source). -/
structure TaxLineData where
  id : Str
  currency : Str
  unit_net_amount : Dec
  unit_gross_amount : Dec
  total_gross_amount : Dec
  total_net_amount : Dec
  tax_rate : Dec
deriving DecidableEq, Repr

/-- `TaxData` dataclass (fields as constructed in the source). -/
structure TaxData where
  currency : Str
  total_net_amount : Dec
  total_gross_amount : Dec
  subtotal_net_amount : Dec
  subtotal_gross_amount : Dec
  shipping_price_gross_amount : Dec
  shipping_price_net_amount : Dec
  shipping_tax_rate : Dec
  lines : List TaxLineData
deriving DecidableEq, Repr

/-- One line of the tax JSON response: every key may be absent
(`none`), and a present amount may be JSON `null` (`some .null`) or a
string. -/
structure TaxLineResponse where
  id : Option Str
  currency : Option Str
  unit_net_amount : Option JVal
  unit_gross_amount : Option JVal
  total_gross_amount : Option JVal
  total_net_amount : Option JVal
  tax_rate : Option JVal
deriving DecidableEq, Repr

/-- The top-level tax JSON response: every key may be absent (`none`),
and a present amount may be JSON `null` (`some .null`) or a string. -/
structure TaxDataResponse where
  currency : Option Str
  total_net_amount : Option JVal
  total_gross_amount : Option JVal
  subtotal_net_amount : Option JVal
  subtotal_gross_amount : Option JVal
  shipping_price_gross_amount : Option JVal
  shipping_price_net_amount : Option JVal
  shipping_tax_rate : Option JVal
  lines : Option (List TaxLineResponse)
deriving DecidableEq, Repr

/-- `_unsafe_parse_tax_line_data`: raises `KeyError`,
`DecimalException` — or `TypeError` for a present-null amount — on
invalid data (source order of field accesses). -/
def parse_tax_line_data_exc (r : TaxLineResponse) : Except PyExc TaxLineData := do
  let id ← getKey r.id
  let currency ← getKey r.currency
  let unit_net_amount ← pyDecimal (← getKey r.unit_net_amount)
  let unit_gross_amount ← pyDecimal (← getKey r.unit_gross_amount)
  let total_gross_amount ← pyDecimal (← getKey r.total_gross_amount)
  let total_net_amount ← pyDecimal (← getKey r.total_net_amount)
  let tax_rate ← pyDecimal (← getKey r.tax_rate)
  return ⟨id, currency, unit_net_amount, unit_gross_amount,
    total_gross_amount, total_net_amount, tax_rate⟩

/-- The list comprehension over `tax_data_response["lines"]`: the first
exception raised by a line propagates. -/
def parseLines : List TaxLineResponse → Except PyExc (List TaxLineData)
  | [] => .ok []
  | l :: ls => do
    let d ← parse_tax_line_data_exc l
    let ds ← parseLines ls
    return d :: ds

/-- `_unsafe_parse_tax_data`: raises `KeyError` or `DecimalException`
on invalid data (source order of field accesses). -/
def parse_tax_data_exc (r : TaxDataResponse) : Except PyExc TaxData := do
  let currency ← getKey r.currency
  let total_net_amount ← pyDecimal (← getKey r.total_net_amount)
  let total_gross_amount ← pyDecimal (← getKey r.total_gross_amount)
  let subtotal_net_amount ← pyDecimal (← getKey r.subtotal_net_amount)
  let subtotal_gross_amount ← pyDecimal (← getKey r.subtotal_gross_amount)
  let shipping_price_gross_amount ← pyDecimal (← getKey r.shipping_price_gross_amount)
  let shipping_price_net_amount ← pyDecimal (← getKey r.shipping_price_net_amount)
  let shipping_tax_rate ← pyDecimal (← getKey r.shipping_tax_rate)
  let lines ← parseLines (← getKey r.lines)
  return ⟨currency, total_net_amount, total_gross_amount, subtotal_net_amount,
    subtotal_gross_amount, shipping_price_gross_amount,
    shipping_price_net_amount, shipping_tax_rate, lines⟩

/-- `parse_tax_data`: catch only `KeyError` and `DecimalException`,
returning `None`; any other exception (the `TypeError` from
`Decimal(None)` on a present-null amount) propagates to the caller. -/
def parse_tax_data (response_data : TaxDataResponse) :
    Except PyExc (Option TaxData) :=
  match parse_tax_data_exc response_data with
  | .ok d => .ok (some d)
  | .error .keyError => .ok none
  | .error .decimalException => .ok none
  | .error e => .error e

/-- An amount key that is absent, or present as a string that does not
parse as a decimal — the failure modes that raise `KeyError` or
`DecimalException` (a present null raises `TypeError` instead and is
excluded here). -/
def amountBenignBad (f : Option JVal) : Bool :=
  match f with
  | none => true
  | some .null => false
  | some (.str s) => (Dec.parse s).isNone

/-- A tax line is malformed (in the caught way) when a required key is
missing or a present amount string does not parse as a decimal. -/
def taxLineMalformed (r : TaxLineResponse) : Prop :=
  r.id = none ∨ r.currency = none ∨
  amountBenignBad r.unit_net_amount = true ∨
  amountBenignBad r.unit_gross_amount = true ∨
  amountBenignBad r.total_gross_amount = true ∨
  amountBenignBad r.total_net_amount = true ∨
  amountBenignBad r.tax_rate = true

instance (r : TaxLineResponse) : Decidable (taxLineMalformed r) := by
  unfold taxLineMalformed; infer_instance

/-- The top-level response is malformed (in the caught way) when a
required key is missing, a present amount string does not parse as a
decimal, or any line is malformed. -/
def taxDataMalformed (r : TaxDataResponse) : Prop :=
  r.currency = none ∨
  amountBenignBad r.total_net_amount = true ∨
  amountBenignBad r.total_gross_amount = true ∨
  amountBenignBad r.subtotal_net_amount = true ∨
  amountBenignBad r.subtotal_gross_amount = true ∨
  amountBenignBad r.shipping_price_gross_amount = true ∨
  amountBenignBad r.shipping_price_net_amount = true ∨
  amountBenignBad r.shipping_tax_rate = true ∨
  r.lines = none ∨ (∃ l ∈ r.lines.getD [], taxLineMalformed l)

instance (r : TaxDataResponse) : Decidable (taxDataMalformed r) := by
  unfold taxDataMalformed; infer_instance

/-- No amount field of the line is a present JSON null (so
`Decimal(None)`'s `TypeError` cannot arise from it). -/
def taxLineNoNull (r : TaxLineResponse) : Prop :=
  r.unit_net_amount ≠ some JVal.null ∧
  r.unit_gross_amount ≠ some JVal.null ∧
  r.total_gross_amount ≠ some JVal.null ∧
  r.total_net_amount ≠ some JVal.null ∧
  r.tax_rate ≠ some JVal.null

instance (r : TaxLineResponse) : Decidable (taxLineNoNull r) := by
  unfold taxLineNoNull; infer_instance

/-- No amount field of the response, at top level or in any line, is a
present JSON null. -/
def taxDataNoNull (r : TaxDataResponse) : Prop :=
  r.total_net_amount ≠ some JVal.null ∧
  r.total_gross_amount ≠ some JVal.null ∧
  r.subtotal_net_amount ≠ some JVal.null ∧
  r.subtotal_gross_amount ≠ some JVal.null ∧
  r.shipping_price_gross_amount ≠ some JVal.null ∧
  r.shipping_price_net_amount ≠ some JVal.null ∧
  r.shipping_tax_rate ≠ some JVal.null ∧
  (∀ l ∈ r.lines.getD [], taxLineNoNull l)

instance (r : TaxDataResponse) : Decidable (taxDataNoNull r) := by
  unfold taxDataNoNull; infer_instance

theorem except_bind_ok {α β : Type} {a : Except PyExc α}
    {f : α → Except PyExc β} {b : β} (h : (a >>= f) = .ok b) :
    ∃ x, a = .ok x ∧ f x = .ok b := by
  cases a with
  | error e => simp [Bind.bind, Except.bind] at h
  | ok x => exact ⟨x, rfl, by simpa [Bind.bind, Except.bind] using h⟩

theorem getKey_ok {α : Type} {o : Option α} {a : α} (h : getKey o = .ok a) :
    o = some a := by
  cases o with
  | none => simp [getKey] at h
  | some v =>
    simp only [getKey, Except.ok.injEq] at h
    rw [h]

theorem pyDecimal_ok {v : JVal} {d : Dec} (h : pyDecimal v = .ok d) :
    ∃ s, v = JVal.str s ∧ Dec.parse s = some d := by
  cases v with
  | null => simp [pyDecimal] at h
  | str s =>
    refine ⟨s, rfl, ?_⟩
    simp only [pyDecimal] at h
    cases hp : Dec.parse s with
    | none => rw [hp] at h; simp at h
    | some w => rw [hp] at h; simpa using h

theorem amountBenignBad_false_of_ok {o : Option JVal} {v : JVal} {d : Dec}
    (ho : getKey o = .ok v) (hd : pyDecimal v = .ok d) :
    amountBenignBad o = false := by
  obtain ⟨s, rfl, hp⟩ := pyDecimal_ok hd
  rw [getKey_ok ho]
  simp [amountBenignBad, hp]

theorem tax_line_exc_ok {r : TaxLineResponse} {d : TaxLineData}
    (h : parse_tax_line_data_exc r = .ok d) : ¬ taxLineMalformed r := by
  unfold parse_tax_line_data_exc at h
  obtain ⟨id, hid, h⟩ := except_bind_ok h
  obtain ⟨cur, hcur, h⟩ := except_bind_ok h
  obtain ⟨s1, hs1, h⟩ := except_bind_ok h
  obtain ⟨d1, hd1, h⟩ := except_bind_ok h
  obtain ⟨s2, hs2, h⟩ := except_bind_ok h
  obtain ⟨d2, hd2, h⟩ := except_bind_ok h
  obtain ⟨s3, hs3, h⟩ := except_bind_ok h
  obtain ⟨d3, hd3, h⟩ := except_bind_ok h
  obtain ⟨s4, hs4, h⟩ := except_bind_ok h
  obtain ⟨d4, hd4, h⟩ := except_bind_ok h
  obtain ⟨s5, hs5, h⟩ := except_bind_ok h
  obtain ⟨d5, hd5, h⟩ := except_bind_ok h
  intro hm
  rcases hm with hm | hm | hm | hm | hm | hm | hm
  · rw [getKey_ok hid] at hm; exact Option.noConfusion hm
  · rw [getKey_ok hcur] at hm; exact Option.noConfusion hm
  · rw [amountBenignBad_false_of_ok hs1 hd1] at hm; exact Bool.noConfusion hm
  · rw [amountBenignBad_false_of_ok hs2 hd2] at hm; exact Bool.noConfusion hm
  · rw [amountBenignBad_false_of_ok hs3 hd3] at hm; exact Bool.noConfusion hm
  · rw [amountBenignBad_false_of_ok hs4 hd4] at hm; exact Bool.noConfusion hm
  · rw [amountBenignBad_false_of_ok hs5 hd5] at hm; exact Bool.noConfusion hm

theorem parseLines_ok {ls : List TaxLineResponse} {ds : List TaxLineData}
    (h : parseLines ls = .ok ds) :
    ∀ l ∈ ls, ∃ d, parse_tax_line_data_exc l = .ok d := by
  induction ls generalizing ds with
  | nil => intro l hl; exact absurd hl (List.not_mem_nil l)
  | cons x xs ih =>
    intro l hl
    unfold parseLines at h
    obtain ⟨d0, hd0, h⟩ := except_bind_ok h
    obtain ⟨ds0, hds0, _⟩ := except_bind_ok h
    rcases List.mem_cons.mp hl with he | hm
    · exact ⟨d0, he ▸ hd0⟩
    · exact ih hds0 l hm

theorem tax_data_exc_ok {r : TaxDataResponse} {d : TaxData}
    (h : parse_tax_data_exc r = .ok d) : ¬ taxDataMalformed r := by
  unfold parse_tax_data_exc at h
  obtain ⟨cur, hcur, h⟩ := except_bind_ok h
  obtain ⟨s1, hs1, h⟩ := except_bind_ok h
  obtain ⟨d1, hd1, h⟩ := except_bind_ok h
  obtain ⟨s2, hs2, h⟩ := except_bind_ok h
  obtain ⟨d2, hd2, h⟩ := except_bind_ok h
  obtain ⟨s3, hs3, h⟩ := except_bind_ok h
  obtain ⟨d3, hd3, h⟩ := except_bind_ok h
  obtain ⟨s4, hs4, h⟩ := except_bind_ok h
  obtain ⟨d4, hd4, h⟩ := except_bind_ok h
  obtain ⟨s5, hs5, h⟩ := except_bind_ok h
  obtain ⟨d5, hd5, h⟩ := except_bind_ok h
  obtain ⟨s6, hs6, h⟩ := except_bind_ok h
  obtain ⟨d6, hd6, h⟩ := except_bind_ok h
  obtain ⟨s7, hs7, h⟩ := except_bind_ok h
  obtain ⟨d7, hd7, h⟩ := except_bind_ok h
  obtain ⟨lraw, hlraw, h⟩ := except_bind_ok h
  obtain ⟨lds, hlds, _⟩ := except_bind_ok h
  intro hm
  rcases hm with hm | hm | hm | hm | hm | hm | hm | hm | hm | hm
  · rw [getKey_ok hcur] at hm; exact Option.noConfusion hm
  · rw [amountBenignBad_false_of_ok hs1 hd1] at hm; exact Bool.noConfusion hm
  · rw [amountBenignBad_false_of_ok hs2 hd2] at hm; exact Bool.noConfusion hm
  · rw [amountBenignBad_false_of_ok hs3 hd3] at hm; exact Bool.noConfusion hm
  · rw [amountBenignBad_false_of_ok hs4 hd4] at hm; exact Bool.noConfusion hm
  · rw [amountBenignBad_false_of_ok hs5 hd5] at hm; exact Bool.noConfusion hm
  · rw [amountBenignBad_false_of_ok hs6 hd6] at hm; exact Bool.noConfusion hm
  · rw [amountBenignBad_false_of_ok hs7 hd7] at hm; exact Bool.noConfusion hm
  · rw [getKey_ok hlraw] at hm; exact Option.noConfusion hm
  · obtain ⟨l, hl, hlm⟩ := hm
    rw [getKey_ok hlraw] at hl
    simp only [Option.getD_some] at hl
    obtain ⟨dl, hdl⟩ := parseLines_ok hlds l hl
    exact tax_line_exc_ok hdl hlm

theorem getKey_bind_no_type {α β : Type} {o : Option α}
    {f : α → Except PyExc β}
    (hf : ∀ x, o = some x → f x ≠ .error .typeError) :
    (getKey o >>= f) ≠ .error .typeError := by
  cases o with
  | none => simp [getKey, Bind.bind, Except.bind]
  | some x =>
    simp only [getKey, Bind.bind, Except.bind]
    exact hf x rfl

theorem pyDecimal_bind_no_type {β : Type} {v : JVal}
    {f : Dec → Except PyExc β} (hv : v ≠ JVal.null)
    (hf : ∀ d, f d ≠ .error .typeError) :
    (pyDecimal v >>= f) ≠ .error .typeError := by
  cases v with
  | null => exact absurd rfl hv
  | str s =>
    cases hp : Dec.parse s with
    | none =>
      have he : pyDecimal (JVal.str s) = .error .decimalException := by
        simp [pyDecimal, hp]
      rw [he]
      simp [Bind.bind, Except.bind]
    | some d =>
      have he : pyDecimal (JVal.str s) = .ok d := by
        simp [pyDecimal, hp]
      rw [he]
      simpa [Bind.bind, Except.bind] using hf d

theorem pure_no_type {β : Type} (b : β) :
    (pure b : Except PyExc β) ≠ .error .typeError := by
  simp [pure, Except.pure]

theorem bind_no_type {α β : Type} {a : Except PyExc α}
    {f : α → Except PyExc β} (ha : a ≠ .error .typeError)
    (hf : ∀ x, f x ≠ .error .typeError) :
    (a >>= f) ≠ .error .typeError := by
  cases a with
  | error e =>
    simp only [Bind.bind, Except.bind]
    intro hc
    injection hc with h1
    exact ha (by rw [h1])
  | ok x =>
    simp only [Bind.bind, Except.bind]
    exact hf x

theorem tax_line_no_type {r : TaxLineResponse} (h : taxLineNoNull r) :
    parse_tax_line_data_exc r ≠ .error .typeError := by
  obtain ⟨h1, h2, h3, h4, h5⟩ := h
  unfold parse_tax_line_data_exc
  apply getKey_bind_no_type; intro id _
  apply getKey_bind_no_type; intro cur _
  apply getKey_bind_no_type; intro v1 hv1
  apply pyDecimal_bind_no_type (fun he => h1 (by rw [hv1, he])); intro d1
  apply getKey_bind_no_type; intro v2 hv2
  apply pyDecimal_bind_no_type (fun he => h2 (by rw [hv2, he])); intro d2
  apply getKey_bind_no_type; intro v3 hv3
  apply pyDecimal_bind_no_type (fun he => h3 (by rw [hv3, he])); intro d3
  apply getKey_bind_no_type; intro v4 hv4
  apply pyDecimal_bind_no_type (fun he => h4 (by rw [hv4, he])); intro d4
  apply getKey_bind_no_type; intro v5 hv5
  apply pyDecimal_bind_no_type (fun he => h5 (by rw [hv5, he])); intro d5
  exact pure_no_type _

theorem parseLines_no_type {ls : List TaxLineResponse}
    (h : ∀ l ∈ ls, taxLineNoNull l) :
    parseLines ls ≠ .error .typeError := by
  induction ls with
  | nil => simp [parseLines]
  | cons x xs ih =>
    unfold parseLines
    apply bind_no_type (tax_line_no_type (h x (by simp)))
    intro d
    apply bind_no_type (ih (fun l hl => h l (List.mem_cons_of_mem x hl)))
    intro ds
    exact pure_no_type _

theorem tax_data_no_type {r : TaxDataResponse} (h : taxDataNoNull r) :
    parse_tax_data_exc r ≠ .error .typeError := by
  obtain ⟨h1, h2, h3, h4, h5, h6, h7, hlines⟩ := h
  unfold parse_tax_data_exc
  apply getKey_bind_no_type; intro cur _
  apply getKey_bind_no_type; intro v1 hv1
  apply pyDecimal_bind_no_type (fun he => h1 (by rw [hv1, he])); intro d1
  apply getKey_bind_no_type; intro v2 hv2
  apply pyDecimal_bind_no_type (fun he => h2 (by rw [hv2, he])); intro d2
  apply getKey_bind_no_type; intro v3 hv3
  apply pyDecimal_bind_no_type (fun he => h3 (by rw [hv3, he])); intro d3
  apply getKey_bind_no_type; intro v4 hv4
  apply pyDecimal_bind_no_type (fun he => h4 (by rw [hv4, he])); intro d4
  apply getKey_bind_no_type; intro v5 hv5
  apply pyDecimal_bind_no_type (fun he => h5 (by rw [hv5, he])); intro d5
  apply getKey_bind_no_type; intro v6 hv6
  apply pyDecimal_bind_no_type (fun he => h6 (by rw [hv6, he])); intro d6
  apply getKey_bind_no_type; intro v7 hv7
  apply pyDecimal_bind_no_type (fun he => h7 (by rw [hv7, he])); intro d7
  apply getKey_bind_no_type; intro lraw hlraw
  have hln : ∀ l ∈ lraw, taxLineNoNull l := by
    intro l hl
    apply hlines
    rw [hlraw]
    simpa using hl
  apply bind_no_type (parseLines_no_type hln)
  intro lds
  exact pure_no_type _

/-- C2: the claim is refuted for an amount that is present but JSON
null: `decimal.Decimal(None)` raises `TypeError`, which
`parse_tax_data` (catching only `KeyError` and `DecimalException`)
does not catch — on the response below, whose `total_net_amount` is
null and therefore not parseable as a decimal, the parser raises
instead of returning no data. -/
theorem claim_C2_counterexample :
    parse_tax_data
      ⟨some "USD".toList, some JVal.null, some (JVal.str "8.0".toList),
        some (JVal.str "10.0".toList), some (JVal.str "2.0".toList),
        some (JVal.str "2.5".toList), some (JVal.str "0.25".toList),
        some (JVal.str "0.1".toList), some []⟩ =
      .error PyExc.typeError := rfl

/-- C2 (amended): for every tax response that is missing a required
field (currency, the seven amount/rate fields, or lines, at top level
or in any line) or whose present amount is a string that does not
parse as a decimal, `parse_tax_data` returns no data without raising —
provided no amount field is a present JSON null; a present null amount
instead raises an uncaught `TypeError` (shown for `total_net_amount`
whenever currency is present). -/
theorem claim_C2 (r : TaxDataResponse) :
    (taxDataNoNull r → taxDataMalformed r → parse_tax_data r = .ok none) ∧
    (∀ c, r.currency = some c → r.total_net_amount = some JVal.null →
      parse_tax_data r = .error PyExc.typeError) := by
  constructor
  · intro hnn hm
    unfold parse_tax_data
    cases he : parse_tax_data_exc r with
    | ok d => exact absurd hm (tax_data_exc_ok he)
    | error e =>
      cases e with
      | keyError => rfl
      | decimalException => rfl
      | typeError => exact absurd he (tax_data_no_type hnn)
  · intro c hc ht
    unfold parse_tax_data parse_tax_data_exc
    rw [hc, ht]
    simp [getKey, pyDecimal, Bind.bind, Except.bind]

theorem claim_C2_witness :
    parse_tax_data
      ⟨some "USD".toList, none, some (JVal.str "8.0".toList),
        some (JVal.str "10.0".toList), some (JVal.str "2.0".toList),
        some (JVal.str "2.5".toList), some (JVal.str "0.25".toList),
        some (JVal.str "0.1".toList), some []⟩ = .ok none :=
  (claim_C2 _).1 (by decide) (by decide)

/-! ### `parse_payment_action_response` (`saleor/plugins/webhook/utils.py`) -/

/-- Python truthiness of an optional string: `None` and `""` are falsy. -/
def pyOptStrFalsy (o : Option Str) : Bool :=
  match o with
  | none => true
  | some s => s.isEmpty

/-- The fields of `PaymentData` read by the parser. -/
structure PaymentData where
  amount : Dec
  currency : Str
deriving DecidableEq, Repr

/-- The `"payment_method"` sub-dict of the response; every key optional. -/
structure PaymentMethodResponse where
  brand : Option Str
  exp_month : Option Str
  exp_year : Option Str
  last_4 : Option Str
  name : Option Str
  type : Option Str
deriving DecidableEq, Repr

/-- `PaymentMethodInfo` dataclass (fields as constructed in the source). -/
structure PaymentMethodInfo where
  brand : Option Str
  exp_month : Option Str
  exp_year : Option Str
  last_4 : Option Str
  name : Option Str
  type : Option Str
deriving DecidableEq, Repr

/-- The payment action JSON response; every key may be absent.  Amounts
arrive as strings and are converted via `decimal.Decimal`. -/
structure PaymentActionResponse where
  error : Option Str
  payment_method : Option PaymentMethodResponse
  amount : Option JVal
  action_required : Option Bool
  action_required_data : Option Str
  customer_id : Option Str
  kind : Option Str
  psp_reference : Option Str
  transaction_id : Option Str
  transaction_already_processed : Option Bool
deriving DecidableEq, Repr

/-- `GatewayResponse` dataclass (fields as constructed in the source). -/
structure GatewayResponse where
  action_required : Bool
  action_required_data : Option Str
  amount : Dec
  currency : Str
  customer_id : Option Str
  error : Option Str
  is_success : Bool
  kind : Str
  payment_method_info : Option PaymentMethodInfo
  raw_response : PaymentActionResponse
  psp_reference : Option Str
  transaction_id : Str
  transaction_already_processed : Bool
deriving DecidableEq, Repr

/-- `parse_payment_action_response(payment_information, response_data,
transaction_kind)`.  The `try/except` around `Decimal` catches only
`decimal.DecimalException`, so the `TypeError` of a present-null
amount propagates and the function raises instead of returning.
(`if payment_method_data:` tests dict truthiness; the model treats any
present sub-dict as truthy.) -/
def parse_payment_action_response (payment_information : PaymentData)
    (response_data : PaymentActionResponse) (transaction_kind : Str) :
    Except PyExc GatewayResponse :=
  let error := response_data.error
  let is_success := pyOptStrFalsy error
  let payment_method_info :=
    match response_data.payment_method with
    | none => none
    | some pm => some (⟨pm.brand, pm.exp_month, pm.exp_year, pm.last_4,
        pm.name, pm.type⟩ : PaymentMethodInfo)
  let amountE : Except PyExc Dec :=
    match response_data.amount with
    | none => .ok payment_information.amount
    | some v =>
      match pyDecimal v with
      | .ok d => .ok d
      | .error .decimalException => .ok payment_information.amount
      | .error e => .error e
  match amountE with
  | .error e => .error e
  | .ok amount =>
    .ok { action_required := response_data.action_required.getD false
          action_required_data := response_data.action_required_data
          amount := amount
          currency := payment_information.currency
          customer_id := response_data.customer_id
          error := error
          is_success := is_success
          kind := response_data.kind.getD transaction_kind
          payment_method_info := payment_method_info
          raw_response := response_data
          psp_reference := response_data.psp_reference
          transaction_id := response_data.transaction_id.getD []
          transaction_already_processed :=
            response_data.transaction_already_processed.getD false }

theorem pyOptStrFalsy_iff (o : Option Str) :
    pyOptStrFalsy o = true ↔ (o = none ∨ o = some []) := by
  cases o with
  | none => simp [pyOptStrFalsy]
  | some s => simp [pyOptStrFalsy, List.isEmpty_iff]

/-- C10: the claim is refuted when the `"amount"` key is present but
JSON null: `decimal.Decimal(None)` raises `TypeError`, which the
`except decimal.DecimalException` clause does not catch, so the parser
raises instead of returning a response whose amount is
`payment_information.amount`. -/
theorem claim_C10_counterexample :
    parse_payment_action_response ⟨⟨100, 0⟩, "USD".toList⟩
      ⟨none, none, some JVal.null, none, none, none, none, none,
        none, none⟩ "capture".toList = .error PyExc.typeError := rfl

/-- C10 (amended): whenever the parser returns a response, its
`is_success` holds iff the `"error"` key is absent or falsy; the
returned `amount` is the parsed decimal when the `"amount"` key holds a
parseable string, and falls back to `payment_information.amount` when
the key is absent or holds an unparseable string (the caught
`DecimalException`); a present JSON-null amount instead raises an
uncaught `TypeError`. -/
theorem claim_C10 (pi : PaymentData) (rd : PaymentActionResponse) (tk : Str) :
    (∀ g, parse_payment_action_response pi rd tk = .ok g →
      (g.is_success = true ↔ (rd.error = none ∨ rd.error = some []))) ∧
    (rd.amount = none →
      (parse_payment_action_response pi rd tk).toOption.map
        (fun g => g.amount) = some pi.amount) ∧
    (∀ s, rd.amount = some (JVal.str s) → Dec.parse s = none →
      (parse_payment_action_response pi rd tk).toOption.map
        (fun g => g.amount) = some pi.amount) ∧
    (∀ s d, rd.amount = some (JVal.str s) → Dec.parse s = some d →
      (parse_payment_action_response pi rd tk).toOption.map
        (fun g => g.amount) = some d) ∧
    (rd.amount = some JVal.null →
      parse_payment_action_response pi rd tk = .error PyExc.typeError) := by
  refine ⟨?_, ?_, ?_, ?_, ?_⟩
  · intro g hg
    simp only [parse_payment_action_response] at hg
    cases hra : rd.amount with
    | none =>
      rw [hra] at hg
      simp only [Except.ok.injEq] at hg
      rw [← hg]
      exact pyOptStrFalsy_iff rd.error
    | some v =>
      cases v with
      | null =>
        rw [hra] at hg
        simp [pyDecimal] at hg
      | str s =>
        rw [hra] at hg
        cases hp : Dec.parse s with
        | none =>
          simp only [pyDecimal, hp] at hg
          simp only [Except.ok.injEq] at hg
          rw [← hg]
          exact pyOptStrFalsy_iff rd.error
        | some d =>
          simp only [pyDecimal, hp] at hg
          simp only [Except.ok.injEq] at hg
          rw [← hg]
          exact pyOptStrFalsy_iff rd.error
  · intro h
    simp [parse_payment_action_response, h, Except.toOption]
  · intro s hs hp
    simp [parse_payment_action_response, hs, hp, pyDecimal, Except.toOption]
  · intro s d hs hp
    simp [parse_payment_action_response, hs, hp, pyDecimal, Except.toOption]
  · intro h
    simp [parse_payment_action_response, h, pyDecimal]

theorem claim_C10_witness :
    (parse_payment_action_response ⟨⟨100, 0⟩, "USD".toList⟩
      ⟨none, none, some (JVal.str "12.5".toList), none, none, none, none,
        none, none, none⟩ "capture".toList).toOption.map
          (fun g => g.amount) = some ⟨125, 1⟩ :=
  (claim_C10 ⟨⟨100, 0⟩, "USD".toList⟩
    ⟨none, none, some (JVal.str "12.5".toList), none, none, none, none,
      none, none, none⟩ "capture".toList).2.2.2.1 "12.5".toList ⟨125, 1⟩ rfl
    (by decide)

/-! ### List parsers for payment gateways and shipping methods -/

/-- Python truthiness of an optional string: present and non-empty. -/
def pyOptStrTruthy (o : Option Str) : Bool :=
  match o with
  | none => false
  | some s => !s.isEmpty

/-- Python `str()` of an optional string as interpolated in an f-string:
`None` renders as the text `"None"`. -/
def pyStrOfOptStr : Option Str → Str
  | none => "None".toList
  | some s => s

/-- The base64 alphabet. -/
def b64Alphabet : Str :=
  "ABCDEFGHIJKLMNOPQRSTUVWXYZabcdefghijklmnopqrstuvwxyz0123456789+/".toList

/-- Model of `base64.b64encode` over a byte list. -/
def b64Encode : List Nat → Str
  | [] => []
  | [b1] => [b64Alphabet.getD (b1 / 4) '=', b64Alphabet.getD (b1 % 4 * 16) '=',
      '=', '=']
  | [b1, b2] => [b64Alphabet.getD (b1 / 4) '=',
      b64Alphabet.getD (b1 % 4 * 16 + b2 / 16) '=',
      b64Alphabet.getD (b2 % 16 * 4) '=', '=']
  | b1 :: b2 :: b3 :: rest =>
    b64Alphabet.getD (b1 / 4) '=' ::
    b64Alphabet.getD (b1 % 4 * 16 + b2 / 16) '=' ::
    b64Alphabet.getD (b2 % 16 * 4 + b3 / 64) '=' ::
    b64Alphabet.getD (b3 % 64) '=' :: b64Encode rest

/-- `to_shipping_app_id(app, shipping_method_id)`: base64 of
`f"{APP_ID_PREFIX}:{app.pk}:{shipping_method_id}"` (code points as
bytes; multi-byte UTF-8 is not modelled). -/
def to_shipping_app_id (app : App) (shipping_method_id : Str) : Str :=
  b64Encode ((appIdHead ++ ':' ::
    (natStr app.pk ++ ':' :: shipping_method_id)).map Char.toNat)

example : to_shipping_app_id ⟨7⟩ "abc".toList = "YXBwOjc6YWJj".toList := by decide
example : to_shipping_app_id ⟨12⟩ "None".toList = "YXBwOjEyOk5vbmU=".toList := by
  decide

/-- One entry of the payment gateway list response; keys read with
`.get`, so all optional. -/
structure PaymentGatewayEntry where
  id : Option Str
  name : Option Str
  currencies : Option (List Str)
  config : Option Str
deriving DecidableEq, Repr

/-- `PaymentGateway` dataclass (fields as constructed in the source). -/
structure PaymentGateway where
  id : Str
  name : Option Str
  currencies : Option (List Str)
  config : Option Str
deriving DecidableEq, Repr

/-- `parse_list_payment_gateways_response(response_data, app)`: append
a gateway for each entry whose `"id"` is truthy; other keys default to
`None`. -/
def parse_list_payment_gateways_response
    (response_data : List PaymentGatewayEntry) (app : App) :
    List PaymentGateway :=
  response_data.foldl
    (fun gateways gateway_data =>
      match gateway_data.id with
      | some gateway_id =>
        if gateway_id ≠ [] then
          gateways ++ [⟨to_payment_app_id app gateway_id, gateway_data.name,
            gateway_data.currencies, gateway_data.config⟩]
        else gateways
      | none => gateways)
    []

/-- One entry of the shipping method list response; keys read with
`.get`, so all optional. -/
structure ShippingMethodEntry where
  id : Option Str
  name : Option Str
  amount : Option Str
  currency : Option Str
  maximum_delivery_days : Option Int
deriving DecidableEq, Repr

/-- A `prices.Money` value. -/
structure Money where
  amount : Dec
  currency : Option Str
deriving DecidableEq, Repr

/-- Model of `prices.Money(amount, currency)` (third-party library):
the constructor runs `Decimal(amount)`, so a `None` amount raises
`TypeError` and an unparseable string raises `DecimalException`. -/
def pyMoney (amount : Option Str) (currency : Option Str) :
    Except PyExc Money :=
  match amount with
  | none => .error .typeError
  | some s =>
    match Dec.parse s with
    | none => .error .decimalException
    | some d => .ok ⟨d, currency⟩

/-- `ShippingMethodData` dataclass (fields as constructed in the
source). -/
structure ShippingMethodData where
  id : Str
  name : Option Str
  price : Money
  maximum_delivery_days : Option Int
deriving DecidableEq, Repr

/-- `parse_list_shipping_methods_response(response_data, app)`: builds
one `ShippingMethodData` per entry; a fault raised while building (from
`Money`) propagates to the caller unhandled. -/
def parse_list_shipping_methods_response
    (response_data : List ShippingMethodEntry) (app : App) :
    Except PyExc (List ShippingMethodData) :=
  match response_data with
  | [] => .ok []
  | e :: rest => do
    let price ← pyMoney e.amount e.currency
    let others ← parse_list_shipping_methods_response rest app
    return ⟨to_shipping_app_id app (pyStrOfOptStr e.id), e.name, price,
      e.maximum_delivery_days⟩ :: others

/-- C8: the claim says neither list parser skips or tolerates an entry
with an absent required key; but `parse_list_payment_gateways_response`
silently skips an entry whose `"id"` key is absent (returning `[]`
here, with no fault). -/
theorem claim_C8_counterexample :
    parse_list_payment_gateways_response
      [⟨none, some "X".toList, none, none⟩] ⟨1⟩ = [] := by decide

/-- The list appended for one gateway entry: a singleton when the id is
truthy, nothing otherwise. -/
def pgChunk (app : App) (gd : PaymentGatewayEntry) : List PaymentGateway :=
  match gd.id with
  | some gid =>
    if gid ≠ [] then
      [⟨to_payment_app_id app gid, gd.name, gd.currencies, gd.config⟩]
    else []
  | none => []

theorem payment_gateways_foldl_acc (app : App)
    (l : List PaymentGatewayEntry) :
    ∀ acc : List PaymentGateway,
      l.foldl
        (fun gateways gateway_data =>
          match gateway_data.id with
          | some gateway_id =>
            if gateway_id ≠ [] then
              gateways ++ [⟨to_payment_app_id app gateway_id,
                gateway_data.name, gateway_data.currencies,
                gateway_data.config⟩]
            else gateways
          | none => gateways)
        acc =
      acc ++ (l.map (pgChunk app)).flatten := by
  induction l with
  | nil => intro acc; simp
  | cons e es ih =>
    intro acc
    simp only [List.foldl_cons, List.map_cons, List.flatten]
    cases he : e.id with
    | none =>
      simp only [he, pgChunk]
      rw [ih acc]
      simp [pgChunk, he]
    | some gid =>
      by_cases hg : gid ≠ []
      · simp only [he, if_pos hg]
        rw [ih]
        simp [pgChunk, he, if_pos hg]
      · simp only [he, if_neg hg]
        rw [ih acc]
        simp [pgChunk, he, if_neg hg]

/-- C8 (amended): the shipping parser assumes required keys — it never
skips an entry, and an entry whose `"amount"` is absent propagates an
unhandled fault (`TypeError` from `Money`) to the caller; the payment
parser, by contrast, guards on `"id"`: it skips every entry whose id is
absent or empty, tolerates the other missing keys as `None` defaults,
and raises nothing. -/
theorem claim_C8 (rd_s : List ShippingMethodEntry)
    (rd_p : List PaymentGatewayEntry) (app : App) :
    ((∃ e ∈ rd_s, e.amount = none) →
      ∃ exc, parse_list_shipping_methods_response rd_s app = .error exc) ∧
    (∀ res, parse_list_shipping_methods_response rd_s app = .ok res →
      res.length = rd_s.length) ∧
    (parse_list_payment_gateways_response rd_p app =
      (rd_p.filter (fun gd => pyOptStrTruthy gd.id)).map
        (fun gd => ⟨to_payment_app_id app (gd.id.getD []), gd.name,
          gd.currencies, gd.config⟩)) := by
  refine ⟨?_, ?_, ?_⟩
  · intro ⟨e, he, hamt⟩
    induction rd_s with
    | nil => exact absurd he (List.not_mem_nil e)
    | cons x xs ih =>
      rcases List.mem_cons.mp he with hx | hxs
      · subst hx
        refine ⟨.typeError, ?_⟩
        simp [parse_list_shipping_methods_response, pyMoney, hamt,
          Bind.bind, Except.bind]
      · cases hm : pyMoney x.amount x.currency with
        | error exc =>
          refine ⟨exc, ?_⟩
          simp [parse_list_shipping_methods_response, hm, Bind.bind,
            Except.bind]
        | ok price =>
          obtain ⟨exc, hexc⟩ := ih hxs
          refine ⟨exc, ?_⟩
          simp [parse_list_shipping_methods_response, hm, hexc, Bind.bind,
            Except.bind]
  · intro res h
    induction rd_s generalizing res with
    | nil =>
      simp only [parse_list_shipping_methods_response] at h
      cases h
      rfl
    | cons x xs ih =>
      unfold parse_list_shipping_methods_response at h
      obtain ⟨price, hp, h⟩ := except_bind_ok h
      obtain ⟨others, ho, h⟩ := except_bind_ok h
      simp only [pure, Except.pure, Except.ok.injEq] at h
      subst h
      simp [ih others ho]
  · unfold parse_list_payment_gateways_response
    rw [payment_gateways_foldl_acc]
    simp only [List.nil_append]
    induction rd_p with
    | nil => rfl
    | cons e es ih =>
      simp only [List.map_cons, List.filter_cons, List.flatten]
      cases he : e.id with
      | none =>
        simp [pgChunk, he, pyOptStrTruthy, ih]
      | some gid =>
        by_cases hg : gid = []
        · subst hg
          simp [pgChunk, he, pyOptStrTruthy, ih]
        · simp [pgChunk, he, pyOptStrTruthy, hg, List.isEmpty_iff, ih]

theorem claim_C8_witness :
    ∃ exc, parse_list_shipping_methods_response
      [⟨some "m1".toList, some "fast".toList, none, some "USD".toList,
        none⟩] ⟨1⟩ = .error exc :=
  (claim_C8 [⟨some "m1".toList, some "fast".toList, none,
    some "USD".toList, none⟩] [] ⟨1⟩).1 (by decide)

/-! ### Event delivery tracker (`saleor/plugins/webhook/utils.py`) -/

/-- `EventDeliveryStatus` choices. -/
inductive EventDeliveryStatus where
  | pending
  | success
  | failed
deriving DecidableEq, Repr

/-- A webhook, identified by its primary key. -/
structure Webhook where
  id : Nat
deriving DecidableEq, Repr

/-- An `EventPayload` row, identified by its primary key. -/
structure EventPayload where
  id : Nat
deriving DecidableEq, Repr

/-- An `EventDelivery` row.  `id` is `none` until the row is saved. -/
structure EventDelivery where
  id : Option Nat
  status : EventDeliveryStatus
  event_type : Str
  payload : EventPayload
  webhook : Webhook
deriving DecidableEq, Repr

/-- `create_event_delivery_list_for_webhooks(webhooks, event_payload,
event_type)`: one pending delivery per webhook, bulk-created and
returned. -/
def create_event_delivery_list_for_webhooks (webhooks : List Webhook)
    (event_payload : EventPayload) (event_type : Str) : List EventDelivery :=
  webhooks.map (fun webhook =>
    { id := none
      status := EventDeliveryStatus.pending
      event_type := event_type
      payload := event_payload
      webhook := webhook })

/-- Model of Django `delivery.delete()`: remove the row with the
delivery's primary key from the stored table. -/
def delete_delivery (db : List EventDelivery) (delivery : EventDelivery) :
    List EventDelivery :=
  db.filter (fun e => e.id ≠ delivery.id)

/-- `clear_successful_delivery(delivery)`: delete the record only when
its status is SUCCESS. -/
def clear_successful_delivery (db : List EventDelivery)
    (delivery : EventDelivery) : List EventDelivery :=
  if delivery.status = EventDeliveryStatus.success then
    delete_delivery db delivery
  else db

/-- `WebhookResponse` (from `.tasks`, not part of the excerpt).
Modelled from the spec: the delivery outcome carries the response
content, the request/response headers, a status, and an elapsed
duration (a float whose value is only copied, modelled opaquely as an
integer). -/
structure WebhookResponse where
  content : Str
  request_headers : List (Str × Str)
  response_headers : List (Str × Str)
  duration : Int
  status : EventDeliveryStatus
deriving DecidableEq, Repr

/-- A JSON string literal (escaping inside the text is not modelled). -/
def jsonStr (s : Str) : Str := '"' :: s ++ ['"']

/-- Model of Python `json.dumps` on a string-to-string dict. -/
def jsonDumps (pairs : List (Str × Str)) : Str :=
  "\x7b".toList ++
    joinSep ", ".toList
      (pairs.map (fun p => jsonStr p.1 ++ ':' :: ' ' :: jsonStr p.2)) ++
    "\x7d".toList

/-- An `EventDeliveryAttempt` row. -/
structure EventDeliveryAttempt where
  id : Option Nat
  delivery_id : Option Nat
  task_id : Option Str
  duration : Option Int
  response : Option Str
  request_headers : Option Str
  response_headers : Option Str
  status : EventDeliveryStatus
  created_at : Nat
deriving DecidableEq, Repr

/-- Model of Django `save(update_fields=...)` for an attempt: copy only
the named fields from the in-memory instance onto the stored row (the
primary key is only used to locate the row, never rewritten). -/
def saveAttemptFields (stored mem : EventDeliveryAttempt)
    (fields : List Str) : EventDeliveryAttempt :=
  { id := stored.id
    delivery_id :=
      if "delivery_id".toList ∈ fields then mem.delivery_id
      else stored.delivery_id
    task_id := if "task_id".toList ∈ fields then mem.task_id else stored.task_id
    duration :=
      if "duration".toList ∈ fields then mem.duration else stored.duration
    response :=
      if "response".toList ∈ fields then mem.response else stored.response
    request_headers :=
      if "request_headers".toList ∈ fields then mem.request_headers
      else stored.request_headers
    response_headers :=
      if "response_headers".toList ∈ fields then mem.response_headers
      else stored.response_headers
    status := if "status".toList ∈ fields then mem.status else stored.status
    created_at :=
      if "created_at".toList ∈ fields then mem.created_at
      else stored.created_at }

/-- `attempt_update(attempt, webhook_response)`: assign duration,
response body, serialized headers and status in memory, then save with
`update_fields` naming exactly those five fields. -/
def attempt_update (attempt : EventDeliveryAttempt)
    (webhook_response : WebhookResponse) : EventDeliveryAttempt :=
  let mem := { attempt with
    duration := some webhook_response.duration
    response := some webhook_response.content
    response_headers := some (jsonDumps webhook_response.response_headers)
    request_headers := some (jsonDumps webhook_response.request_headers)
    status := webhook_response.status }
  saveAttemptFields attempt mem
    ["duration".toList, "response".toList, "response_headers".toList,
      "request_headers".toList, "status".toList]

/-- Model of Django `save(update_fields=...)` for a delivery. -/
def saveDeliveryFields (stored mem : EventDelivery) (fields : List Str) :
    EventDelivery :=
  { id := stored.id
    status := if "status".toList ∈ fields then mem.status else stored.status
    event_type :=
      if "event_type".toList ∈ fields then mem.event_type
      else stored.event_type
    payload := if "payload".toList ∈ fields then mem.payload else stored.payload
    webhook := if "webhook".toList ∈ fields then mem.webhook else stored.webhook }

/-- `delivery_update(delivery, status)`: assign the status in memory and
save with `update_fields=["status"]`. -/
def delivery_update (delivery : EventDelivery) (status : EventDeliveryStatus) :
    EventDelivery :=
  saveDeliveryFields delivery { delivery with status := status }
    ["status".toList]

/-- C3: `clear_successful_delivery` deletes the delivery iff its status
is SUCCESS: on SUCCESS no row with the delivery's key remains while all
other rows survive, and on PENDING/FAILED the stored table is returned
unchanged. -/
theorem claim_C3 (db : List EventDelivery) (d : EventDelivery) :
    (d.status = EventDeliveryStatus.success →
      ∀ e ∈ clear_successful_delivery db d, e.id ≠ d.id) ∧
    (d.status = EventDeliveryStatus.success →
      ∀ e ∈ db, e.id ≠ d.id → e ∈ clear_successful_delivery db d) ∧
    (d.status ≠ EventDeliveryStatus.success →
      clear_successful_delivery db d = db) := by
  refine ⟨?_, ?_, ?_⟩
  · intro hs e he
    unfold clear_successful_delivery delete_delivery at he
    rw [if_pos hs] at he
    have := List.of_mem_filter he
    simpa using this
  · intro hs e he hne
    unfold clear_successful_delivery delete_delivery
    rw [if_pos hs]
    exact List.mem_filter.mpr ⟨he, by simpa using hne⟩
  · intro hs
    unfold clear_successful_delivery
    rw [if_neg hs]

theorem claim_C3_witness :
    (∀ e ∈ clear_successful_delivery
        [⟨some 1, EventDeliveryStatus.success, "ev".toList, ⟨9⟩, ⟨3⟩⟩,
          ⟨some 2, EventDeliveryStatus.pending, "ev".toList, ⟨9⟩, ⟨4⟩⟩]
        ⟨some 1, EventDeliveryStatus.success, "ev".toList, ⟨9⟩, ⟨3⟩⟩,
      e.id ≠ some 1) ∧
    clear_successful_delivery
        [⟨some 1, EventDeliveryStatus.success, "ev".toList, ⟨9⟩, ⟨3⟩⟩,
          ⟨some 2, EventDeliveryStatus.pending, "ev".toList, ⟨9⟩, ⟨4⟩⟩]
        ⟨some 2, EventDeliveryStatus.pending, "ev".toList, ⟨9⟩, ⟨4⟩⟩ =
      [⟨some 1, EventDeliveryStatus.success, "ev".toList, ⟨9⟩, ⟨3⟩⟩,
        ⟨some 2, EventDeliveryStatus.pending, "ev".toList, ⟨9⟩, ⟨4⟩⟩] :=
  ⟨(claim_C3 _ _).1 rfl,
    (claim_C3 _ ⟨some 2, EventDeliveryStatus.pending, "ev".toList, ⟨9⟩,
      ⟨4⟩⟩).2.2 (by decide)⟩

/-- C6: `attempt_update` writes exactly duration, response, the two
serialized header blobs and status, leaving the other attempt fields
unchanged; `delivery_update` writes exactly the delivery status,
leaving the other delivery fields unchanged. -/
theorem claim_C6 (attempt : EventDeliveryAttempt) (wr : WebhookResponse)
    (delivery : EventDelivery) (status : EventDeliveryStatus) :
    ((attempt_update attempt wr).duration = some wr.duration ∧
      (attempt_update attempt wr).response = some wr.content ∧
      (attempt_update attempt wr).response_headers =
        some (jsonDumps wr.response_headers) ∧
      (attempt_update attempt wr).request_headers =
        some (jsonDumps wr.request_headers) ∧
      (attempt_update attempt wr).status = wr.status) ∧
    ((attempt_update attempt wr).id = attempt.id ∧
      (attempt_update attempt wr).delivery_id = attempt.delivery_id ∧
      (attempt_update attempt wr).task_id = attempt.task_id ∧
      (attempt_update attempt wr).created_at = attempt.created_at) ∧
    ((delivery_update delivery status).status = status ∧
      (delivery_update delivery status).id = delivery.id ∧
      (delivery_update delivery status).event_type = delivery.event_type ∧
      (delivery_update delivery status).payload = delivery.payload ∧
      (delivery_update delivery status).webhook = delivery.webhook) := by
  refine ⟨⟨?_, ?_, ?_, ?_, ?_⟩, ⟨?_, ?_, ?_, ?_⟩, ?_, ?_, ?_, ?_, ?_⟩ <;> rfl

/-- C7: `create_event_delivery_list_for_webhooks` creates exactly one
delivery per webhook — same length, and the i-th delivery is PENDING
with the given event type and payload and the i-th webhook — and
returns that list. -/
theorem claim_C7 (webhooks : List Webhook) (event_payload : EventPayload)
    (event_type : Str) :
    (create_event_delivery_list_for_webhooks webhooks event_payload
      event_type).length = webhooks.length ∧
    ∀ i (hi : i < (create_event_delivery_list_for_webhooks webhooks
        event_payload event_type).length) (hw : i < webhooks.length),
      ((create_event_delivery_list_for_webhooks webhooks event_payload
          event_type).get ⟨i, hi⟩).status = EventDeliveryStatus.pending ∧
      ((create_event_delivery_list_for_webhooks webhooks event_payload
          event_type).get ⟨i, hi⟩).event_type = event_type ∧
      ((create_event_delivery_list_for_webhooks webhooks event_payload
          event_type).get ⟨i, hi⟩).payload = event_payload ∧
      ((create_event_delivery_list_for_webhooks webhooks event_payload
          event_type).get ⟨i, hi⟩).webhook = webhooks.get ⟨i, hw⟩ ∧
      ((create_event_delivery_list_for_webhooks webhooks event_payload
          event_type).get ⟨i, hi⟩).id = none := by
  constructor
  · simp [create_event_delivery_list_for_webhooks]
  · intro i hi hw
    simp [create_event_delivery_list_for_webhooks]

theorem claim_C7_witness :
    ((create_event_delivery_list_for_webhooks [⟨1⟩, ⟨2⟩] ⟨5⟩
        "order_created".toList).get ⟨1, by decide⟩).status =
      EventDeliveryStatus.pending ∧
    ((create_event_delivery_list_for_webhooks [⟨1⟩, ⟨2⟩] ⟨5⟩
        "order_created".toList).get ⟨1, by decide⟩).webhook = ⟨2⟩ :=
  ⟨((claim_C7 [⟨1⟩, ⟨2⟩] ⟨5⟩ "order_created".toList).2 1 (by decide)
      (by decide)).1,
    ((claim_C7 [⟨1⟩, ⟨2⟩] ⟨5⟩ "order_created".toList).2 1 (by decide)
      (by decide)).2.2.2.1⟩

/-! ### Product search documents (`saleor/product/search.py`) -/

/-- `AttributeInputType` choices (from `saleor/attribute`, not in the
excerpt; the five input types matched in `search.py` are listed in the
source, the rest fall into the default branch). -/
inductive AttributeInputType where
  | dropdown
  | multiselect
  | file
  | reference
  | numeric
  | rich_text
  | boolean
  | date
  | date_time
deriving DecidableEq, Repr

/-- Rich-text (EditorJS) content, abstracted as its block texts. -/
abbrev RichText := List Str

/-- Modelled from the spec: `clean_editor_js(..., to_string=True)`
(from `saleor/core/utils/editorjs.py`, not part of the excerpt) strips
rich-text content to plain text; modelled as joining the block texts
with spaces. -/
def clean_editor_js (rich_text : RichText) : Str :=
  joinSep " ".toList rich_text

/-- A naive calendar timestamp. -/
structure DateTime where
  year : Nat
  month : Nat
  day : Nat
  hour : Nat
  minute : Nat
  second : Nat
deriving DecidableEq, Repr

/-- Two-digit zero-padded field. -/
def pad2 (n : Nat) : Str := if n < 10 then '0' :: natStr n else natStr n

/-- Four-digit zero-padded year. -/
def pad4 (n : Nat) : Str :=
  if n < 10 then '0' :: '0' :: '0' :: natStr n
  else if n < 100 then '0' :: '0' :: natStr n
  else if n < 1000 then '0' :: natStr n
  else natStr n

/-- Model of `datetime.isoformat()` (microseconds and timezone not
modelled). -/
def DateTime.isoformat (dt : DateTime) : Str :=
  pad4 dt.year ++ '-' :: (pad2 dt.month ++ '-' :: (pad2 dt.day ++
    'T' :: (pad2 dt.hour ++ ':' :: (pad2 dt.minute ++ ':' :: pad2 dt.second))))

/-- Model of `strftime("%Y-%m-%d %H:%M:%S")`. -/
def DateTime.strftimeStd (dt : DateTime) : Str :=
  pad4 dt.year ++ '-' :: (pad2 dt.month ++ '-' :: (pad2 dt.day ++
    ' ' :: (pad2 dt.hour ++ ':' :: (pad2 dt.minute ++ ':' :: pad2 dt.second))))

/-- An attribute value row (`name`, `rich_text`, `date_time` are the
fields read by the generators). -/
structure AttributeValue where
  name : Str
  rich_text : RichText
  date_time : DateTime
deriving DecidableEq, Repr

/-- An attribute (`assignment.attribute`): its input type and optional
unit. -/
structure Attribute where
  input_type : AttributeInputType
  unit : Option Str
deriving DecidableEq, Repr

/-- An assigned attribute (`assignment.attribute` collapsed to the
attribute itself) with its prefetched values. -/
structure AssignedAttribute where
  attr : Attribute
  values : List AttributeValue
deriving DecidableEq, Repr

/-- A product variant (`sku` is nullable in the schema; the empty
string models a falsy sku). -/
structure ProductVariant where
  sku : Str
  name : Str
  attributes : List AssignedAttribute
deriving DecidableEq, Repr

/-- Search-vector weight tiers. -/
inductive SVWeight where
  | A
  | B
  | C
deriving DecidableEq, Repr

/-- One `SearchVector(Value(v1), ..., weight=w)` term. -/
structure SVTerm where
  values : List Str
  weight : SVWeight
deriving DecidableEq, Repr

/-- Sums of `SearchVector` terms, modelled as the list of terms. -/
abbrev SearchVectorVal := List SVTerm

/-- A product row with the fields read and written by `search.py`. -/
structure Product where
  name : Str
  description_plaintext : Str
  attributes : List AssignedAttribute
  variants : List ProductVariant
  search_document : Str
  search_vector : SearchVectorVal
  updated_at : Nat
deriving DecidableEq, Repr

/-- The `values_list` computed for one assigned attribute in
`generate_attributes_search_document_value`: dropdown/multiselect value
names, rich text stripped to plain text, numeric value name with the
unit suffix (`attribute.unit or ""`), date/datetime ISO strings; other
input types contribute nothing. -/
def attrValuesList (assigned : AssignedAttribute) : List Str :=
  match assigned.attr.input_type with
  | .dropdown | .multiselect => assigned.values.map (fun v => v.name)
  | .rich_text => assigned.values.map (fun v => clean_editor_js v.rich_text)
  | .numeric =>
    let unit := assigned.attr.unit.getD []
    assigned.values.map (fun v => v.name ++ unit)
  | .date | .date_time => assigned.values.map (fun v => v.date_time.isoformat)
  | _ => []

/-- The text appended for one assigned attribute:
`values_data + "\n"` when `values_list` is non-empty. -/
def attrChunk (assigned : AssignedAttribute) : Str :=
  let values_list := attrValuesList assigned
  if values_list ≠ [] then joinSep "\n".toList values_list ++ "\n".toList
  else []

/-- `generate_attributes_search_document_value`: the append loop over
assigned attributes, rendered as concatenation of per-attribute chunks,
lower-cased at the end. -/
def generate_attributes_search_document_value
    (assigned_attributes : List AssignedAttribute) : Str :=
  pyLower ((assigned_attributes.map attrChunk).flatten)

/-- `generate_product_fields_search_document_value`: newline-join the
truthy entries of `PRODUCT_SEARCH_FIELDS = [name,
description_plaintext]`, append a newline when non-empty, lower-case. -/
def generate_product_fields_search_document_value (product : Product) : Str :=
  let value := joinSep "\n".toList
    ([product.name, product.description_plaintext].filter (fun f => f ≠ []))
  let value := if value ≠ [] then value ++ "\n".toList else value
  pyLower value

/-- The SKU part of `generate_variants_search_document_value`:
newline-join of truthy SKUs, plus a trailing newline when non-empty. -/
def variantSkusValue (product : Product) : Str :=
  let variants_data := joinSep "\n".toList
    ((product.variants.map (fun v => v.sku)).filter (fun sku => sku ≠ []))
  if variants_data ≠ [] then variants_data ++ "\n".toList else variants_data

/-- `generate_variants_search_document_value`: the SKU part followed by
each variant's attribute text (the `if variant_attribute_data:` guard is
a no-op on empty chunks), lower-cased. -/
def generate_variants_search_document_value (product : Product) : Str :=
  pyLower (variantSkusValue product ++
    (product.variants.map (fun v =>
      generate_attributes_search_document_value v.attributes)).flatten)

/-- `prepare_product_search_document_value` (prefetching only warms the
database cache and has no semantic effect here). -/
def prepare_product_search_document_value (product : Product) : Str :=
  pyLower (generate_product_fields_search_document_value product ++
    generate_attributes_search_document_value product.attributes ++
    generate_variants_search_document_value product)

/-- The `values_list` for one assigned attribute in
`generate_attributes_search_vector_value` (numeric values get a space
before the unit, dates use `strftime("%Y-%m-%d %H:%M:%S")`). -/
def attrVectorValuesList (assigned : AssignedAttribute) : List Str :=
  match assigned.attr.input_type with
  | .dropdown | .multiselect => assigned.values.map (fun v => v.name)
  | .rich_text => assigned.values.map (fun v => clean_editor_js v.rich_text)
  | .numeric =>
    let unit := assigned.attr.unit.getD []
    assigned.values.map (fun v => v.name ++ ' ' :: unit)
  | .date | .date_time => assigned.values.map (fun v => v.date_time.strftimeStd)
  | _ => []

/-- `generate_attributes_search_vector_value`: one weight-B term per
rendered value; `None` when no attribute contributes. -/
def generate_attributes_search_vector_value
    (assigned_attributes : List AssignedAttribute) : Option SearchVectorVal :=
  let parts := (assigned_attributes.map (fun a =>
    (attrVectorValuesList a).map (fun v => SVTerm.mk [v] SVWeight.B))).flatten
  if parts = [] then none else some parts

/-- `generate_variants_search_vector_value`: `None` when there are no
variants; otherwise one weight-A term per variant (sku and name)
followed by the variants' attribute terms. -/
def generate_variants_search_vector_value (product : Product) :
    Option SearchVectorVal :=
  match product.variants with
  | [] => none
  | variants =>
    some ((variants.map (fun v => SVTerm.mk [v.sku, v.name] SVWeight.A)) ++
      (variants.map (fun v =>
        (generate_attributes_search_vector_value v.attributes).getD [])).flatten)

/-- `prepare_product_search_vector_value`: name at weight A,
description at weight C, then the attribute and variant vectors when
present. -/
def prepare_product_search_vector_value (product : Product) :
    SearchVectorVal :=
  [SVTerm.mk [product.name] SVWeight.A,
    SVTerm.mk [product.description_plaintext] SVWeight.C] ++
  (generate_attributes_search_vector_value product.attributes).getD [] ++
  (generate_variants_search_vector_value product).getD []

/-- Model of Django `save(update_fields=...)`/`bulk_update(...)` for a
product row. -/
def saveProductFields (stored mem : Product) (fields : List Str) : Product :=
  { name := if "name".toList ∈ fields then mem.name else stored.name
    description_plaintext :=
      if "description_plaintext".toList ∈ fields then
        mem.description_plaintext
      else stored.description_plaintext
    attributes :=
      if "attributes".toList ∈ fields then mem.attributes
      else stored.attributes
    variants :=
      if "variants".toList ∈ fields then mem.variants else stored.variants
    search_document :=
      if "search_document".toList ∈ fields then mem.search_document
      else stored.search_document
    search_vector :=
      if "search_vector".toList ∈ fields then mem.search_vector
      else stored.search_vector
    updated_at :=
      if "updated_at".toList ∈ fields then mem.updated_at
      else stored.updated_at }

/-- `update_product_search_document(product)`: recompute document and
vector in memory, then `save(update_fields=["search_document",
"updated_at"])`. -/
def update_product_search_document (product : Product) : Product :=
  let mem := { product with
    search_document := prepare_product_search_document_value product
    search_vector := prepare_product_search_vector_value product }
  saveProductFields product mem
    ["search_document".toList, "updated_at".toList]

/-- `update_products_search_document(products)`: the same per product,
persisted via `bulk_update(products, ["search_document",
"updated_at"])`. -/
def update_products_search_document (products : List Product) :
    List Product :=
  products.map (fun product =>
    let mem := { product with
      search_document := prepare_product_search_document_value product
      search_vector := prepare_product_search_vector_value product }
    saveProductFields product mem
      ["search_document".toList, "updated_at".toList])

/-- C9: both update operations compute a fresh search vector in memory
but persist only `search_document` and `updated_at`: the stored
`search_vector` — like every other field not named in `update_fields` —
is unchanged, while `search_document` receives the freshly prepared
value. -/
theorem claim_C9 (p : Product) (ps : List Product) :
    ((update_product_search_document p).search_vector = p.search_vector ∧
      (update_product_search_document p).search_document =
        prepare_product_search_document_value p ∧
      (update_product_search_document p).name = p.name ∧
      (update_product_search_document p).description_plaintext =
        p.description_plaintext ∧
      (update_product_search_document p).attributes = p.attributes ∧
      (update_product_search_document p).variants = p.variants) ∧
    ((update_products_search_document ps).map (fun q => q.search_vector) =
       ps.map (fun q => q.search_vector) ∧
     (update_products_search_document ps).map (fun q => q.search_document) =
       ps.map (fun q => prepare_product_search_document_value q)) := by
  refine ⟨⟨rfl, rfl, rfl, rfl, rfl, rfl⟩, ?_, ?_⟩ <;>
    simp only [update_products_search_document, List.map_map] <;> rfl

/-! ### Claim C5: containment and newline termination -/

theorem pyLower_append (a b : Str) : pyLower (a ++ b) = pyLower a ++ pyLower b :=
  List.map_append _ a b

theorem pyLower_idem (s : Str) : pyLower (pyLower s) = pyLower s := by
  unfold pyLower
  rw [List.map_map]
  exact List.map_congr_left (fun c _ => pyCharLower_idem c)

theorem pyLower_nl : pyLower "\n".toList = "\n".toList := by decide

theorem infix_pyLower {v s : Str} (h : v <:+: s) :
    pyLower v <:+: pyLower s := by
  obtain ⟨p, q, hpq⟩ := h
  refine ⟨pyLower p, pyLower q, ?_⟩
  rw [← hpq, pyLower_append, pyLower_append]

theorem mem_infix_joinSep {v : Str} {l : List Str} (sep : Str) (h : v ∈ l) :
    v <:+: joinSep sep l := by
  induction l with
  | nil => cases h
  | cons x xs ih =>
    rcases List.mem_cons.mp h with rfl | hm
    · cases xs with
      | nil => exact List.infix_refl v
      | cons y ys =>
        show v <:+: v ++ sep ++ joinSep sep (y :: ys)
        rw [List.append_assoc]
        exact (List.prefix_append v _).isInfix
    · cases xs with
      | nil => cases hm
      | cons y ys =>
        show v <:+: x ++ sep ++ joinSep sep (y :: ys)
        exact (ih hm).trans (List.suffix_append _ _).isInfix

theorem mem_map_infix_flatten {α : Type} (f : α → Str) {x : α} {l : List α}
    (h : x ∈ l) : f x <:+: (l.map f).flatten := by
  induction l with
  | nil => cases h
  | cons a as ih =>
    simp only [List.map_cons, List.flatten_cons]
    rcases List.mem_cons.mp h with rfl | hm
    · exact (List.prefix_append _ _).isInfix
    · exact (ih hm).trans (List.suffix_append _ _).isInfix

/-- A section is empty or ends with a newline. -/
def endsWithNl (s : Str) : Prop := s = [] ∨ ∃ t, s = t ++ "\n".toList

theorem endsWithNl_append {a b : Str} (ha : endsWithNl a)
    (hb : endsWithNl b) : endsWithNl (a ++ b) := by
  rcases hb with rfl | ⟨t, rfl⟩
  · simpa using ha
  · exact Or.inr ⟨a ++ t, by simp⟩

theorem endsWithNl_flatten {l : List Str} (h : ∀ c ∈ l, endsWithNl c) :
    endsWithNl l.flatten := by
  induction l with
  | nil => exact Or.inl rfl
  | cons x xs ih =>
    simp only [List.flatten_cons]
    exact endsWithNl_append (h x (by simp))
      (ih (fun c hc => h c (List.mem_cons_of_mem x hc)))

theorem endsWithNl_pyLower {s : Str} (h : endsWithNl s) :
    endsWithNl (pyLower s) := by
  rcases h with rfl | ⟨t, rfl⟩
  · exact Or.inl rfl
  · rw [pyLower_append, pyLower_nl]
    exact Or.inr ⟨pyLower t, rfl⟩

theorem endsWithNl_attrChunk (a : AssignedAttribute) :
    endsWithNl (attrChunk a) := by
  unfold attrChunk
  by_cases h : attrValuesList a ≠ []
  · rw [if_pos h]
    exact Or.inr ⟨_, rfl⟩
  · rw [if_neg h]
    exact Or.inl rfl

theorem endsWithNl_gen_attrs (l : List AssignedAttribute) :
    endsWithNl (generate_attributes_search_document_value l) :=
  endsWithNl_pyLower (endsWithNl_flatten (by
    intro c hc
    obtain ⟨a, _, rfl⟩ := List.mem_map.mp hc
    exact endsWithNl_attrChunk a))

theorem endsWithNl_fields (p : Product) :
    endsWithNl (generate_product_fields_search_document_value p) := by
  simp only [generate_product_fields_search_document_value]
  by_cases h : joinSep "\n".toList
      ([p.name, p.description_plaintext].filter (fun f => f ≠ [])) ≠ []
  · rw [if_pos h]
    exact endsWithNl_pyLower (Or.inr ⟨_, rfl⟩)
  · rw [if_neg h]
    rw [not_not] at h
    rw [h]
    exact Or.inl rfl

theorem endsWithNl_variantSkus (p : Product) :
    endsWithNl (variantSkusValue p) := by
  simp only [variantSkusValue]
  by_cases h : joinSep "\n".toList
      ((p.variants.map (fun v => v.sku)).filter (fun sku => sku ≠ [])) ≠ []
  · rw [if_pos h]
    exact Or.inr ⟨_, rfl⟩
  · rw [if_neg h]
    rw [not_not] at h
    rw [h]
    exact Or.inl rfl

theorem value_infix_gen_attrs {a : AssignedAttribute} {v : Str}
    {l : List AssignedAttribute} (ha : a ∈ l) (hv : v ∈ attrValuesList a) :
    pyLower v <:+: generate_attributes_search_document_value l := by
  have h1 : v <:+: attrChunk a := by
    unfold attrChunk
    have hne : attrValuesList a ≠ [] := fun he => by
      rw [he] at hv
      cases hv
    rw [if_pos hne]
    exact (mem_infix_joinSep _ hv).trans (List.prefix_append _ _).isInfix
  exact infix_pyLower (h1.trans (mem_map_infix_flatten attrChunk ha))

theorem value_infix_prepare {a : AssignedAttribute} {v : Str} {p : Product}
    (ha : a ∈ p.attributes) (hv : v ∈ attrValuesList a) :
    pyLower v <:+: prepare_product_search_document_value p := by
  have h1 := value_infix_gen_attrs ha hv
  unfold prepare_product_search_document_value
  rw [pyLower_append, pyLower_append]
  have hA : pyLower (generate_attributes_search_document_value
      p.attributes) = generate_attributes_search_document_value
      p.attributes := by
    unfold generate_attributes_search_document_value
    exact pyLower_idem _
  rw [hA]
  exact h1.trans (List.infix_append _ _ _)

theorem value_infix_gen_variants {var : ProductVariant}
    {a : AssignedAttribute} {v : Str} {p : Product} (hvar : var ∈ p.variants)
    (ha : a ∈ var.attributes) (hv : v ∈ attrValuesList a) :
    pyLower v <:+: generate_variants_search_document_value p := by
  have h1 : pyLower v <:+:
      generate_attributes_search_document_value var.attributes :=
    value_infix_gen_attrs ha hv
  have h2 : generate_attributes_search_document_value var.attributes <:+:
      (p.variants.map (fun w =>
        generate_attributes_search_document_value w.attributes)).flatten :=
    mem_map_infix_flatten
      (fun w => generate_attributes_search_document_value w.attributes) hvar
  have h3 : pyLower v <:+: variantSkusValue p ++
      (p.variants.map (fun w =>
        generate_attributes_search_document_value w.attributes)).flatten :=
    (h1.trans h2).trans (List.suffix_append _ _).isInfix
  have h4 := infix_pyLower h3
  rw [pyLower_idem] at h4
  exact h4

theorem value_infix_prepare_variant {var : ProductVariant}
    {a : AssignedAttribute} {v : Str} {p : Product} (hvar : var ∈ p.variants)
    (ha : a ∈ var.attributes) (hv : v ∈ attrValuesList a) :
    pyLower v <:+: prepare_product_search_document_value p := by
  have h1 := value_infix_gen_variants hvar ha hv
  unfold prepare_product_search_document_value
  rw [pyLower_append, pyLower_append]
  have hV : pyLower (generate_variants_search_document_value p) =
      generate_variants_search_document_value p := by
    unfold generate_variants_search_document_value
    exact pyLower_idem _
  rw [hV]
  exact h1.trans (List.suffix_append _ _).isInfix

/-- C5: for every product, the search document contains the lowercase
form of every rendered attribute value (dropdown/multiselect names,
stripped rich text, numeric name plus unit, date/datetime ISO string),
both for product attributes and for variant attributes; and each of the
four sections — product fields, attribute values, variant SKUs, variant
attribute values — is empty or newline-terminated. -/
theorem claim_C5 (p : Product) :
    (∀ a ∈ p.attributes, ∀ v ∈ attrValuesList a,
      pyLower v <:+: prepare_product_search_document_value p) ∧
    (∀ var ∈ p.variants, ∀ a ∈ var.attributes, ∀ v ∈ attrValuesList a,
      pyLower v <:+: prepare_product_search_document_value p) ∧
    endsWithNl (generate_product_fields_search_document_value p) ∧
    endsWithNl (generate_attributes_search_document_value p.attributes) ∧
    endsWithNl (variantSkusValue p) ∧
    (∀ var ∈ p.variants,
      endsWithNl (generate_attributes_search_document_value
        var.attributes)) :=
  ⟨fun _ ha _ hv => value_infix_prepare ha hv,
    fun _ hvar _ ha _ hv => value_infix_prepare_variant hvar ha hv,
    endsWithNl_fields p,
    endsWithNl_gen_attrs p.attributes,
    endsWithNl_variantSkus p,
    fun var _ => endsWithNl_gen_attrs var.attributes⟩

/-- A product with one attribute of each rendered input type and one
variant with a SKU and a dropdown attribute. -/
def sampleProduct : Product :=
  { name := "Shirt".toList
    description_plaintext := "Nice Shirt".toList
    attributes :=
      [⟨⟨AttributeInputType.dropdown, none⟩,
          [⟨"Red".toList, [], ⟨2020, 1, 1, 0, 0, 0⟩⟩]⟩,
        ⟨⟨AttributeInputType.rich_text, none⟩,
          [⟨[], ["Hello World".toList], ⟨2020, 1, 1, 0, 0, 0⟩⟩]⟩,
        ⟨⟨AttributeInputType.numeric, some "cm".toList⟩,
          [⟨"15".toList, [], ⟨2020, 1, 1, 0, 0, 0⟩⟩]⟩,
        ⟨⟨AttributeInputType.date, none⟩,
          [⟨[], [], ⟨2021, 3, 5, 10, 30, 0⟩⟩]⟩]
    variants :=
      [⟨"SKU-1".toList, "v1".toList,
        [⟨⟨AttributeInputType.dropdown, none⟩,
          [⟨"Blue".toList, [], ⟨2020, 1, 1, 0, 0, 0⟩⟩]⟩]⟩]
    search_document := []
    search_vector := []
    updated_at := 0 }

example : prepare_product_search_document_value sampleProduct =
    ("shirt\nnice shirt\nred\nhello world\n15cm\n" ++
      "2021-03-05t10:30:00\nsku-1\nblue\n").toList := by decide

theorem claim_C5_witness :
    pyLower "Red".toList <:+:
      prepare_product_search_document_value sampleProduct ∧
    pyLower "15cm".toList <:+:
      prepare_product_search_document_value sampleProduct ∧
    pyLower "2021-03-05T10:30:00".toList <:+:
      prepare_product_search_document_value sampleProduct ∧
    pyLower "Blue".toList <:+:
      prepare_product_search_document_value sampleProduct :=
  ⟨(claim_C5 sampleProduct).1 ⟨⟨AttributeInputType.dropdown, none⟩,
      [⟨"Red".toList, [], ⟨2020, 1, 1, 0, 0, 0⟩⟩]⟩ (by decide)
      "Red".toList (by decide),
    (claim_C5 sampleProduct).1 ⟨⟨AttributeInputType.numeric, some "cm".toList⟩,
      [⟨"15".toList, [], ⟨2020, 1, 1, 0, 0, 0⟩⟩]⟩ (by decide)
      "15cm".toList (by decide),
    (claim_C5 sampleProduct).1 ⟨⟨AttributeInputType.date, none⟩,
      [⟨[], [], ⟨2021, 3, 5, 10, 30, 0⟩⟩]⟩ (by decide)
      "2021-03-05T10:30:00".toList (by decide),
    (claim_C5 sampleProduct).2.1 ⟨"SKU-1".toList, "v1".toList,
      [⟨⟨AttributeInputType.dropdown, none⟩,
        [⟨"Blue".toList, [], ⟨2020, 1, 1, 0, 0, 0⟩⟩]⟩]⟩ (by decide)
      ⟨⟨AttributeInputType.dropdown, none⟩,
        [⟨"Blue".toList, [], ⟨2020, 1, 1, 0, 0, 0⟩⟩]⟩ (by decide)
      "Blue".toList (by decide)⟩

end Saleor
